import Mathlib

/-!
Verification of the pgfx transaction-context propagation protocol.

Shallow embedding of the two core components of the pgfx repository:
* the transaction manager (`manager`, `(*manager).transaction`,
  `(*manager).ReadCommitted`, `MakeContextTx`, `TxKey`), and
* the dispatching executor (`pgTransactor` with `Exec`, `Query`,
  `QueryRow`, `CopyFrom`, `BeginTx`).

The underlying pool / pgx collaborator is modelled as an environment
`Env` that decides the outcome of `BeginTx`, `Commit` and `Rollback`;
the observable begin/commit/rollback operations issued against it are
recorded as a trace of `Event`s.
-/

/-- Opaque identity of an open transaction handle (`pgx.Tx`). -/
abbrev Tx := Nat

/-- Opaque identity of the underlying connection pool (`pgxpool.Pool`). -/
abbrev Pool := Nat

/-- Go error values with `fmt.Errorf` wrapping.
`base n` is an opaque leaf error; `wrap msg inner` is
`fmt.Errorf(msg + "%w", inner)` (unwrappable); `msgOnly msg` is an error
built with `%v` formatting (not unwrappable, e.g. the recovered-panic
error). Apostrophes occurring in source message strings are omitted. -/
inductive GoError : Type where
  | base : Nat → GoError
  | wrap : String → GoError → GoError
  | msgOnly : String → GoError
deriving DecidableEq, Repr

/-- The unwrap chain of a Go error: the error itself followed by every
error reachable through repeated `errors.Unwrap`. Only `wrap` (built
with the `%w` verb) is unwrappable. -/
def GoError.chain : GoError → List GoError
  | .wrap m i => .wrap m i :: i.chain
  | .base n => [.base n]
  | .msgOnly m => [.msgOnly m]

/-- Context keys. `txKey` is the reserved key `TxKey` (`key("tx")` in
the source); `other n` stands for any other key a caller may bind. -/
inductive Key : Type where
  | txKey : Key
  | other : Nat → Key
deriving DecidableEq, Repr

/-- Values stored in a context. The type assertion `.(pgx.Tx)` in the
source succeeds exactly on `tx` values. -/
inductive Val : Type where
  | tx : Tx → Val
  | other : Nat → Val
deriving DecidableEq, Repr

/-- A Go `context.Context`: an immutable chain of key-value bindings,
most recent first (`context.WithValue` wraps, lookup checks the most
recent binding first). -/
abbrev Ctx := List (Key × Val)

/-- `ctx.Value(k)`: the most recently bound value for `k`, if any. -/
def ctxValue (ctx : Ctx) (k : Key) : Option Val :=
  (ctx.find? (fun kv => kv.1 == k)).map (fun kv => kv.2)

/-- `MakeContextTx(ctx, tx)` = `context.WithValue(ctx, TxKey, tx)`. -/
def MakeContextTx (ctx : Ctx) (t : Tx) : Ctx :=
  (Key.txKey, Val.tx t) :: ctx

/-- The pattern `tx, ok := ctx.Value(TxKey).(pgx.Tx)` used by both the
manager and every routing method of the executor: lookup under the
reserved key followed by the type assertion to a transaction handle. -/
def lookupTx (ctx : Ctx) : Option Tx :=
  match ctxValue ctx Key.txKey with
  | some (Val.tx t) => some t
  | _ => none

/-- Isolation levels (`pgx.TxIsoLevel`). -/
inductive IsoLevel : Type where
  | readCommitted : IsoLevel
  | repeatableRead : IsoLevel
  | serializable : IsoLevel
deriving DecidableEq, Repr

/-- `pgx.TxOptions`. -/
structure TxOptions : Type where
  isoLevel : IsoLevel
deriving DecidableEq, Repr

/-- The observable begin/commit/rollback operations issued against the
underlying pool and the transaction handles it hands out. -/
inductive Event : Type where
  | beginTx : Event
  | commit : Tx → Event
  | rollback : Tx → Event
deriving DecidableEq, Repr

/-- The external database collaborator (the `Transactor` the manager
holds plus the handles it returns): what `BeginTx` yields for given
options, and whether `Commit`/`Rollback` on a given handle succeed
(`none`) or fail with an error (`some e`). -/
structure Env : Type where
  beginResult : TxOptions → Except GoError Tx
  commitResult : Tx → Option GoError
  rollbackResult : Tx → Option GoError

/-- A caller-supplied handler, as a program: it can return (`nil` or an
error), panic, or invoke the transaction manager again (a nested
`ReadCommitted`/`transaction` call) and continue depending on the
error value that call returned. -/
inductive HandlerProg : Type where
  | ret : Option GoError → HandlerProg
  | doPanic : String → HandlerProg
  | nested : TxOptions → HandlerProg → (Option GoError → HandlerProg) → HandlerProg

/-- Outcome of running a handler: returned `nil`, returned an error, or
is panicking (the panic is still unwinding). -/
inductive HOutcome : Type where
  | ok : HOutcome
  | err : GoError → HOutcome
  | panicked : String → HOutcome
deriving DecidableEq, Repr

/-- The body of the deferred function in `(*manager).transaction`, after
panic recovery has been folded into `err0` (the value of the named
return `err` when the deferred function has run `recover`):
if `err0` is non-nil, roll back — and when rollback itself fails,
replace the error with `fmt.Errorf("errRollback: %w", errRollback)`;
otherwise commit — and when commit fails, return
`fmt.Errorf("tx commit failed: %w", err)`. -/
def finishTx (env : Env) (t : Tx) (err0 : Option GoError) :
    Option GoError × List Event :=
  match err0 with
  | some e =>
    match env.rollbackResult t with
    | some errRollback => (some (.wrap "errRollback: " errRollback), [Event.rollback t])
    | none => (some e, [Event.rollback t])
  | none =>
    match env.commitResult t with
    | some ce => (some (.wrap "tx commit failed: " ce), [Event.commit t])
    | none => (none, [Event.commit t])

/-- The value of the named return `err` at the start of the deferred
function of `(*manager).transaction`, given how the handler ended:
a `nil` return leaves `err = nil`; an error return has been wrapped by
`fmt.Errorf("failed executing code inside transaction: %w", err)`;
a panic left `err = nil` and `recover` turns it into
`fmt.Errorf("panic recovered: %v", r)` (not unwrappable: `%v`). -/
def recoverErr : HOutcome → Option GoError
  | .ok => none
  | .err e => some (.wrap "failed executing code inside transaction: " e)
  | .panicked v => some (.msgOnly ("panic recovered: " ++ v))

/-- Everything `(*manager).transaction` does after `BeginTx` succeeded
with handle `t` and the handler finished with outcome `hres` having
emitted trace `hevs`: the main body wraps a handler error, the deferred
function recovers a panic and rolls back or commits. Returns the final
`err` and the full trace from the handler onwards. -/
def afterBegin (env : Env) (t : Tx) (hres : HOutcome) (hevs : List Event) :
    Option GoError × List Event :=
  let p := finishTx env t (recoverErr hres)
  (p.1, hevs ++ p.2)

/-- Run a handler program in a context. The `nested` case is the
translation of `(*manager).transaction` as invoked from inside a
handler: if a transaction handle is bound in `ctx`, the nested call
runs the inner handler directly on the same context and propagates its
result unchanged (a panic keeps unwinding past the continuation);
otherwise it begins a transaction against the environment, binds the
handle via `MakeContextTx`, runs the inner handler, and commits or
rolls back exactly as the deferred function does. -/
def runProg (env : Env) : HandlerProg → Ctx → HOutcome × List Event
  | .ret none, _ => (.ok, [])
  | .ret (some e), _ => (.err e, [])
  | .doPanic v, _ => (.panicked v, [])
  | .nested opts inner k, ctx =>
    match lookupTx ctx with
    | some _ =>
      match runProg env inner ctx with
      | (.panicked v, evs) => (.panicked v, evs)
      | (.ok, evs) =>
        let r2 := runProg env (k none) ctx
        (r2.1, evs ++ r2.2)
      | (.err e, evs) =>
        let r2 := runProg env (k (some e)) ctx
        (r2.1, evs ++ r2.2)
    | none =>
      match env.beginResult opts with
      | .error e =>
        let r2 := runProg env (k (some (.wrap "cant begin transaction " e))) ctx
        (r2.1, Event.beginTx :: r2.2)
      | .ok t =>
        let r := runProg env inner (MakeContextTx ctx t)
        let p := afterBegin env t r.1 r.2
        let r2 := runProg env (k p.1) ctx
        (r2.1, Event.beginTx :: (p.2 ++ r2.2))

/-- The transaction manager. Its `db` field is the `Transactor`
collaborator (together with the behaviour of the handles it returns). -/
structure manager : Type where
  db : Env

/-- `(*manager).transaction(ctx, opts, fn)`: if a transaction handle is
already bound in `ctx`, invoke the handler directly on that context and
return its result; otherwise `BeginTx` (returning
`fmt.Errorf("cant begin transaction %w", err)` on failure without
running the handler), bind the handle with `MakeContextTx`, run the
handler and let the deferred function recover/rollback/commit.
The result is the returned error (as an `HOutcome`, `panicked` when a
panic escapes the nested fast path) together with the trace of pool
operations issued. -/
def manager.transaction (m : manager) (opts : TxOptions) (fn : HandlerProg)
    (ctx : Ctx) : HOutcome × List Event :=
  match lookupTx ctx with
  | some _ => runProg m.db fn ctx
  | none =>
    match m.db.beginResult opts with
    | .error e => (.err (.wrap "cant begin transaction " e), [Event.beginTx])
    | .ok t =>
      let r := runProg m.db fn (MakeContextTx ctx t)
      let p := afterBegin m.db t r.1 r.2
      (match p.1 with
       | none => HOutcome.ok
       | some e => HOutcome.err e, Event.beginTx :: p.2)

/-- `(*manager).ReadCommitted(ctx, f)`: `transaction` at the
read-committed isolation level. -/
def manager.ReadCommitted (m : manager) (fn : HandlerProg) (ctx : Ctx) :
    HOutcome × List Event :=
  m.transaction { isoLevel := IsoLevel.readCommitted } fn ctx

/-- Number of `BeginTx` operations in a trace. -/
def countBegin (evs : List Event) : Nat :=
  (evs.filter (fun e => match e with | .beginTx => true | _ => false)).length

/-- Number of terminal (commit-or-rollback) operations in a trace. -/
def countTerminal (evs : List Event) : Nat :=
  (evs.filter (fun e => match e with
    | .commit _ => true
    | .rollback _ => true
    | .beginTx => false)).length

/-- Where a single executor call is routed: to a bound transaction
handle or to a concrete underlying pool. -/
inductive Target : Type where
  | toTx : Tx → Target
  | toPool : Pool → Target
deriving DecidableEq, Repr

/-- The dispatching executor: a value holding only the pool handle
`dbc`. -/
structure pgTransactor : Type where
  dbc : Pool
deriving DecidableEq, Repr

/-- `pgTransactor.Exec`: route to the bound transaction handle if the
context carries one, else to the pool. The receiver is a value and no
field is assigned, so the method also returns the (unchanged) receiver
to make the frame condition statable. -/
def pgTransactor.Exec (p : pgTransactor) (ctx : Ctx) (_sql : String) :
    Target × pgTransactor :=
  match lookupTx ctx with
  | some t => (Target.toTx t, p)
  | none => (Target.toPool p.dbc, p)

/-- `pgTransactor.Query`: same routing as `Exec`. -/
def pgTransactor.Query (p : pgTransactor) (ctx : Ctx) (_sql : String) :
    Target × pgTransactor :=
  match lookupTx ctx with
  | some t => (Target.toTx t, p)
  | none => (Target.toPool p.dbc, p)

/-- `pgTransactor.QueryRow`: same routing as `Exec`. -/
def pgTransactor.QueryRow (p : pgTransactor) (ctx : Ctx) (_sql : String) :
    Target × pgTransactor :=
  match lookupTx ctx with
  | some t => (Target.toTx t, p)
  | none => (Target.toPool p.dbc, p)

/-- `pgTransactor.CopyFrom` (bulk copy): same routing as `Exec`. -/
def pgTransactor.CopyFrom (p : pgTransactor) (ctx : Ctx)
    (_tableName : String) (_columnNames : List String) :
    Target × pgTransactor :=
  match lookupTx ctx with
  | some t => (Target.toTx t, p)
  | none => (Target.toPool p.dbc, p)

/-- `pgTransactor.BeginTx`: the source method is
`return p.dbc.BeginTx(ctx, txOptions)` — it always goes to the pool and
performs no context inspection. -/
def pgTransactor.BeginTx (p : pgTransactor) (_ctx : Ctx) (_opts : TxOptions) :
    Target × pgTransactor :=
  (Target.toPool p.dbc, p)

/-- The routing decision as a pure function of the receiver's pool field
and the context alone. -/
def routeTarget (p : pgTransactor) (ctx : Ctx) : Target :=
  match lookupTx ctx with
  | some t => Target.toTx t
  | none => Target.toPool p.dbc

/-- The read-committed options `(*manager).ReadCommitted` builds. -/
def rcOpts : TxOptions :=
  { isoLevel := IsoLevel.readCommitted }

/-- Concrete collaborator: `BeginTx` yields handle 7, commit and
rollback succeed. -/
def envOk : Env where
  beginResult := fun _ => Except.ok 7
  commitResult := fun _ => none
  rollbackResult := fun _ => none

/-- Concrete collaborator: `BeginTx` fails with the opaque error 0. -/
def envBeginFail : Env where
  beginResult := fun _ => Except.error (GoError.base 0)
  commitResult := fun _ => none
  rollbackResult := fun _ => none

/-- Concrete collaborator: `BeginTx` yields handle 5, rollback fails
with the opaque error 1, commit succeeds. -/
def envRollbackFail : Env where
  beginResult := fun _ => Except.ok 5
  commitResult := fun _ => none
  rollbackResult := fun _ => some (GoError.base 1)

/-- Concrete collaborator: `BeginTx` yields handle 6, commit fails with
the opaque error 2, rollback succeeds. -/
def envCommitFail : Env where
  beginResult := fun _ => Except.ok 6
  commitResult := fun _ => some (GoError.base 2)
  rollbackResult := fun _ => none

/-! ## Helper lemmas -/

/-- Looking up the reserved key in a context extended by `MakeContextTx`
finds the freshly bound handle. -/
theorem lookupTx_MakeContextTx (ctx : Ctx) (t : Tx) :
    lookupTx (MakeContextTx ctx t) = some t := by
  simp [lookupTx, ctxValue, MakeContextTx, List.find?]

/-- Inside a context that carries a transaction handle, running any
handler program issues no begin/commit/rollback operation at all:
every nested manager invocation takes the fast path. -/
theorem runProg_trace_nil (env : Env) (fn : HandlerProg) (ctx : Ctx) (t : Tx)
    (h : lookupTx ctx = some t) : (runProg env fn ctx).2 = [] := by
  induction fn with
  | ret o => cases o <;> rfl
  | doPanic v => rfl
  | nested opts inner k ih ihk =>
    rcases hr : runProg env inner ctx with ⟨o, evs⟩
    have hevs : evs = [] := by
      have h2 := ih
      rw [hr] at h2
      exact h2
    subst hevs
    cases o <;> simp [runProg, h, hr, ihk]

/-- Characterisation of an outermost `transaction` invocation whose
`BeginTx` succeeds: the handler runs on the extended context with an
empty trace of pool operations, and the result and trace are exactly
what the deferred commit/rollback logic produces around it. -/
theorem transaction_run (m : manager) (opts : TxOptions) (fn : HandlerProg)
    (ctx : Ctx) (t : Tx)
    (h1 : lookupTx ctx = none) (h2 : m.db.beginResult opts = .ok t) :
    (runProg m.db fn (MakeContextTx ctx t)).2 = [] ∧
    m.transaction opts fn ctx =
      (match (finishTx m.db t
          (recoverErr (runProg m.db fn (MakeContextTx ctx t)).1)).1 with
       | none => HOutcome.ok
       | some e => HOutcome.err e,
       Event.beginTx ::
         (finishTx m.db t
           (recoverErr (runProg m.db fn (MakeContextTx ctx t)).1)).2) := by
  have hnil := runProg_trace_nil m.db fn (MakeContextTx ctx t) t
    (lookupTx_MakeContextTx ctx t)
  refine ⟨hnil, ?_⟩
  simp [manager.transaction, h1, h2, afterBegin, hnil]

/-- The deferred function always issues exactly one terminal
commit-or-rollback operation and no begin. -/
theorem finishTx_trace (env : Env) (t : Tx) (e0 : Option GoError) :
    countBegin (finishTx env t e0).2 = 0 ∧
    countTerminal (finishTx env t e0).2 = 1 := by
  cases e0 with
  | none =>
    cases h : env.commitResult t <;>
      simp [finishTx, h, countBegin, countTerminal]
  | some e =>
    cases h : env.rollbackResult t <;>
      simp [finishTx, h, countBegin, countTerminal]

/-- Every error is the head of its own unwrap chain. -/
theorem GoError.self_mem_chain (e : GoError) : e ∈ e.chain := by
  cases e <;> simp [GoError.chain]

/-- A leading begin adds one to the begin count. -/
theorem countBegin_cons_beginTx (l : List Event) :
    countBegin (Event.beginTx :: l) = countBegin l + 1 := by
  simp [countBegin]

/-- A leading begin leaves the terminal count unchanged. -/
theorem countTerminal_cons_beginTx (l : List Event) :
    countTerminal (Event.beginTx :: l) = countTerminal l := by
  simp [countTerminal]

/-! ## Claims -/

/-- C3: when a transaction handle is already bound in the context, the
manager invokes the handler directly on that same context and returns
its result unchanged, without opening a transaction and without issuing
any commit or rollback (the trace of pool operations is empty). -/
theorem C3_nested_call_direct (m : manager) (opts : TxOptions)
    (fn : HandlerProg) (ctx : Ctx) (t : Tx)
    (h : lookupTx ctx = some t) :
    m.transaction opts fn ctx = runProg m.db fn ctx ∧
    (m.transaction opts fn ctx).2 = [] := by
  have h1 : m.transaction opts fn ctx = runProg m.db fn ctx := by
    simp [manager.transaction, h]
  exact ⟨h1, h1 ▸ runProg_trace_nil m.db fn ctx t h⟩

/-- C3 witness: a nested `ReadCommitted`-style call on a context already
carrying handle 4 returns the handler's result unchanged with an empty
trace. -/
theorem C3_nested_call_direct_witness :
    manager.transaction ⟨envOk⟩ rcOpts (.ret (some (.base 3)))
        (MakeContextTx [] 4) =
      runProg envOk (.ret (some (.base 3))) (MakeContextTx [] 4) ∧
    (manager.transaction ⟨envOk⟩ rcOpts (.ret (some (.base 3)))
        (MakeContextTx [] 4)).2 = [] :=
  C3_nested_call_direct ⟨envOk⟩ rcOpts (.ret (some (.base 3)))
    (MakeContextTx [] 4) 4 (by rfl)

/-- C7: when no handle is bound and `BeginTx` fails, the manager
returns the wrapped begin error immediately; the result does not depend
on the handler (it is never invoked), the trace holds the single failed
begin, and the underlying begin error stays reachable by unwrapping. -/
theorem C7_begin_failure (m : manager) (opts : TxOptions)
    (fn : HandlerProg) (ctx : Ctx) (e : GoError)
    (h1 : lookupTx ctx = none) (h2 : m.db.beginResult opts = .error e) :
    m.transaction opts fn ctx =
      (HOutcome.err (.wrap "cant begin transaction " e), [Event.beginTx]) ∧
    (∀ fn2 : HandlerProg,
      m.transaction opts fn2 ctx = m.transaction opts fn ctx) ∧
    e ∈ GoError.chain (.wrap "cant begin transaction " e) := by
  refine ⟨by simp [manager.transaction, h1, h2], ?_,
    by simp [GoError.chain, GoError.self_mem_chain]⟩
  intro fn2
  simp [manager.transaction, h1, h2]

/-- C7 witness: with a collaborator whose `BeginTx` fails with error 0,
the call made on the empty context returns the wrapped begin error and
a trace with only the begin attempt. -/
theorem C7_begin_failure_witness :
    manager.transaction ⟨envBeginFail⟩ rcOpts (.ret none) [] =
      (HOutcome.err (.wrap "cant begin transaction " (.base 0)),
       [Event.beginTx]) :=
  (C7_begin_failure ⟨envBeginFail⟩ rcOpts (.ret none) [] (.base 0)
    (by rfl) (by rfl)).1

/-- C10: binding a handle with `MakeContextTx` round-trips — the lookup
under `TxKey` plus the type assertion recovers exactly that handle — so
the executor's routing and the manager's nested-call detection both
observe precisely the handle the manager bound. -/
theorem C10_bind_lookup_roundtrip (ctx : Ctx) (t : Tx) (p : pgTransactor)
    (sql : String) (m : manager) (opts : TxOptions) (fn : HandlerProg) :
    ctxValue (MakeContextTx ctx t) Key.txKey = some (Val.tx t) ∧
    lookupTx (MakeContextTx ctx t) = some t ∧
    (pgTransactor.Exec p (MakeContextTx ctx t) sql).1 = Target.toTx t ∧
    manager.transaction m opts fn (MakeContextTx ctx t) =
      runProg m.db fn (MakeContextTx ctx t) := by
  have hl := lookupTx_MakeContextTx ctx t
  refine ⟨?_, hl, ?_, ?_⟩
  · simp [ctxValue, MakeContextTx]
  · simp [pgTransactor.Exec, hl]
  · simp [manager.transaction, hl]

/-- C9: the executor is stateless — every exec/query/query-row/
bulk-copy/begin call leaves the receiver (its pool field included)
unchanged, and each routing decision is the pure function `routeTarget`
of the passed context (begin always targets the pool). -/
theorem C9_executor_stateless (p : pgTransactor) (ctx : Ctx)
    (sql tbl : String) (cols : List String) (opts : TxOptions) :
    (p.Exec ctx sql).2 = p ∧ (p.Query ctx sql).2 = p ∧
    (p.QueryRow ctx sql).2 = p ∧ (p.CopyFrom ctx tbl cols).2 = p ∧
    (p.BeginTx ctx opts).2 = p ∧
    (p.Exec ctx sql).1 = routeTarget p ctx ∧
    (p.Query ctx sql).1 = routeTarget p ctx ∧
    (p.QueryRow ctx sql).1 = routeTarget p ctx ∧
    (p.CopyFrom ctx tbl cols).1 = routeTarget p ctx ∧
    (p.BeginTx ctx opts).1 = Target.toPool p.dbc := by
  unfold pgTransactor.Exec pgTransactor.Query pgTransactor.QueryRow
    pgTransactor.CopyFrom pgTransactor.BeginTx routeTarget
  cases lookupTx ctx <;> simp

/-- C4: when the handler of an outermost invocation returns a non-nil
error, the manager rolls the transaction back (the trace is begin then
rollback, whatever the rollback outcome), and when rollback succeeds it
returns the handler error wrapped with the handler-stage tag, still
reachable by unwrapping. -/
theorem C4_handler_error_rolls_back (m : manager) (opts : TxOptions)
    (fn : HandlerProg) (ctx : Ctx) (t : Tx) (e : GoError)
    (h1 : lookupTx ctx = none) (h2 : m.db.beginResult opts = .ok t)
    (h3 : (runProg m.db fn (MakeContextTx ctx t)).1 = HOutcome.err e) :
    (m.transaction opts fn ctx).2 = [Event.beginTx, Event.rollback t] ∧
    (m.db.rollbackResult t = none →
      m.transaction opts fn ctx =
        (HOutcome.err
          (.wrap "failed executing code inside transaction: " e),
         [Event.beginTx, Event.rollback t])) ∧
    e ∈ GoError.chain
      (.wrap "failed executing code inside transaction: " e) := by
  obtain ⟨hnil, heq⟩ := transaction_run m opts fn ctx t h1 h2
  rw [heq, h3]
  refine ⟨?_, fun h4 => by simp [finishTx, recoverErr, h4],
    by simp [GoError.chain, GoError.self_mem_chain]⟩
  cases h4 : m.db.rollbackResult t <;> simp [finishTx, recoverErr, h4]

/-- C4 witness: a handler returning the opaque error 3 under a
collaborator whose rollback succeeds yields the wrapped handler error
and a begin-then-rollback trace on handle 7. -/
theorem C4_handler_error_rolls_back_witness :
    manager.transaction ⟨envOk⟩ rcOpts (.ret (some (.base 3))) [] =
      (HOutcome.err
        (.wrap "failed executing code inside transaction: " (.base 3)),
       [Event.beginTx, Event.rollback 7]) :=
  (C4_handler_error_rolls_back ⟨envOk⟩ rcOpts (.ret (some (.base 3))) []
    7 (.base 3) (by rfl) (by rfl) (by rfl)).2.1 (by rfl)

/-- C5: a panic in the handler of an outermost invocation does not
escape — the invocation returns normally with a non-nil error (the
recovered panic, or the rollback failure if rolling back fails) and the
transaction is rolled back. -/
theorem C5_panic_recovered_rolls_back (m : manager) (opts : TxOptions)
    (fn : HandlerProg) (ctx : Ctx) (t : Tx) (v : String)
    (h1 : lookupTx ctx = none) (h2 : m.db.beginResult opts = .ok t)
    (h3 : (runProg m.db fn (MakeContextTx ctx t)).1 = HOutcome.panicked v) :
    m.transaction opts fn ctx =
      (HOutcome.err
        (match m.db.rollbackResult t with
         | some errRollback => .wrap "errRollback: " errRollback
         | none => .msgOnly ("panic recovered: " ++ v)),
       [Event.beginTx, Event.rollback t]) := by
  obtain ⟨hnil, heq⟩ := transaction_run m opts fn ctx t h1 h2
  rw [heq, h3]
  cases h4 : m.db.rollbackResult t <;> simp [finishTx, recoverErr, h4]

/-- C5 witness: a handler that panics with "boom" under a collaborator
whose rollback succeeds makes the call return the recovered-panic error
normally, with a begin-then-rollback trace on handle 7. -/
theorem C5_panic_recovered_rolls_back_witness :
    manager.transaction ⟨envOk⟩ rcOpts (.doPanic "boom") [] =
      (HOutcome.err (.msgOnly ("panic recovered: " ++ "boom")),
       [Event.beginTx, Event.rollback 7]) :=
  C5_panic_recovered_rolls_back ⟨envOk⟩ rcOpts (.doPanic "boom") [] 7
    "boom" (by rfl) (by rfl) (by rfl)

/-- C6: when the handler of an outermost invocation returns nil, the
manager commits (the trace is begin then commit, with no rollback); on
commit success it returns nil, and on commit failure it returns the
commit error wrapped with the commit-stage tag, still reachable by
unwrapping. -/
theorem C6_nil_handler_commits (m : manager) (opts : TxOptions)
    (fn : HandlerProg) (ctx : Ctx) (t : Tx)
    (h1 : lookupTx ctx = none) (h2 : m.db.beginResult opts = .ok t)
    (h3 : (runProg m.db fn (MakeContextTx ctx t)).1 = HOutcome.ok) :
    m.transaction opts fn ctx =
      (match m.db.commitResult t with
       | none => HOutcome.ok
       | some ce => HOutcome.err (.wrap "tx commit failed: " ce),
       [Event.beginTx, Event.commit t]) ∧
    (∀ ce : GoError, m.db.commitResult t = some ce →
      ce ∈ GoError.chain (.wrap "tx commit failed: " ce)) := by
  obtain ⟨hnil, heq⟩ := transaction_run m opts fn ctx t h1 h2
  rw [heq, h3]
  refine ⟨?_, fun ce _ => by simp [GoError.chain, GoError.self_mem_chain]⟩
  cases h4 : m.db.commitResult t <;> simp [finishTx, recoverErr, h4]

/-- C6 witness: a nil-returning handler commits and returns nil when
commit succeeds (handle 7), and returns the wrapped commit error when
commit fails (handle 6); in both runs the trace is begin then commit
with no rollback. -/
theorem C6_nil_handler_commits_witness :
    manager.transaction ⟨envOk⟩ rcOpts (.ret none) [] =
      (HOutcome.ok, [Event.beginTx, Event.commit 7]) ∧
    manager.transaction ⟨envCommitFail⟩ rcOpts (.ret none) [] =
      (HOutcome.err (.wrap "tx commit failed: " (.base 2)),
       [Event.beginTx, Event.commit 6]) :=
  ⟨(C6_nil_handler_commits ⟨envOk⟩ rcOpts (.ret none) [] 7
      (by rfl) (by rfl) (by rfl)).1,
   (C6_nil_handler_commits ⟨envCommitFail⟩ rcOpts (.ret none) [] 6
      (by rfl) (by rfl) (by rfl)).1⟩

/-- C2 counterexample: handler error `base 0`, rollback fails with
`base 1` — the returned error wraps only the rollback failure and the
original handler error `base 0` is NOT in the returned unwrap chain. -/
theorem C2_counterexample :
    manager.transaction ⟨envRollbackFail⟩ rcOpts (.ret (some (.base 0))) [] =
      (HOutcome.err (.wrap "errRollback: " (.base 1)),
       [Event.beginTx, Event.rollback 5]) ∧
    GoError.base 0 ∉ GoError.chain (.wrap "errRollback: " (.base 1)) := by
  constructor
  · rfl
  · decide

/-- C2 (amended): if the handler errs and rollback also fails, the
manager returns the rollback failure wrapped with its stage tag; the
unwrap chain of the returned error is exactly that wrapper followed by
the rollback error's own chain, so the original handler error has been
discarded and is reachable only if it already occurs inside the
rollback error itself. -/
theorem C2_rollback_failure_masks (m : manager) (opts : TxOptions)
    (fn : HandlerProg) (ctx : Ctx) (t : Tx) (e errRollback : GoError)
    (h1 : lookupTx ctx = none) (h2 : m.db.beginResult opts = .ok t)
    (h3 : (runProg m.db fn (MakeContextTx ctx t)).1 = HOutcome.err e)
    (h4 : m.db.rollbackResult t = some errRollback) :
    m.transaction opts fn ctx =
      (HOutcome.err (.wrap "errRollback: " errRollback),
       [Event.beginTx, Event.rollback t]) ∧
    GoError.chain (.wrap "errRollback: " errRollback) =
      .wrap "errRollback: " errRollback :: GoError.chain errRollback := by
  obtain ⟨hnil, heq⟩ := transaction_run m opts fn ctx t h1 h2
  rw [heq, h3]
  exact ⟨by simp [finishTx, recoverErr, h4], by simp [GoError.chain]⟩

/-- C2 witness: the amended statement at handler error `base 0` and
failing rollback `base 1` on handle 5. -/
theorem C2_rollback_failure_masks_witness :
    manager.transaction ⟨envRollbackFail⟩ rcOpts (.ret (some (.base 0))) [] =
      (HOutcome.err (.wrap "errRollback: " (.base 1)),
       [Event.beginTx, Event.rollback 5]) :=
  (C2_rollback_failure_masks ⟨envRollbackFail⟩ rcOpts
    (.ret (some (.base 0))) [] 5 (.base 0) (.base 1)
    (by rfl) (by rfl) (by rfl) (by rfl)).1

/-- C1 counterexample: when `BeginTx` itself fails, the outermost
invocation issues one begin but zero terminal commit-or-rollback
operations, contradicting the unconditional "exactly one terminal
call" reading of the claim. -/
theorem C1_counterexample :
    countBegin (manager.transaction ⟨envBeginFail⟩ rcOpts (.ret none) []).2
      = 1 ∧
    countTerminal
      (manager.transaction ⟨envBeginFail⟩ rcOpts (.ret none) []).2 = 0 := by
  constructor <;> rfl

/-- C1 (amended): for an outermost invocation (no handle bound in the
initial context) whose `BeginTx` succeeds, the manager issues exactly
one begin and exactly one terminal commit-or-rollback against the
collaborator, regardless of the handler's nesting depth; and any
handler program run in a context that carries a handle — i.e. every
nested invocation — issues zero begin/commit/rollback operations. -/
theorem C1_one_begin_one_terminal (m : manager) (opts : TxOptions)
    (fn gn : HandlerProg) (ctx ctx2 : Ctx) (t t2 : Tx)
    (h1 : lookupTx ctx = none) (h2 : m.db.beginResult opts = .ok t)
    (h3 : lookupTx ctx2 = some t2) :
    countBegin (m.transaction opts fn ctx).2 = 1 ∧
    countTerminal (m.transaction opts fn ctx).2 = 1 ∧
    (runProg m.db gn ctx2).2 = [] := by
  obtain ⟨hnil, heq⟩ := transaction_run m opts fn ctx t h1 h2
  obtain ⟨hb, ht⟩ := finishTx_trace m.db t
    (recoverErr (runProg m.db fn (MakeContextTx ctx t)).1)
  have htr : (m.transaction opts fn ctx).2 =
      Event.beginTx :: (finishTx m.db t
        (recoverErr (runProg m.db fn (MakeContextTx ctx t)).1)).2 := by
    rw [heq]
  refine ⟨?_, ?_, runProg_trace_nil m.db gn ctx2 t2 h3⟩
  · rw [htr, countBegin_cons_beginTx, hb]
  · rw [htr, countTerminal_cons_beginTx, ht]

/-- C1 witness: at depth 2 of nesting (a handler that itself calls the
manager and then returns its result), exactly one begin and one
terminal operation occur, and a handler run with handle 9 bound issues
no operation. -/
theorem C1_one_begin_one_terminal_witness :
    countBegin (manager.transaction ⟨envOk⟩ rcOpts
      (.nested rcOpts (.ret none) (fun r => .ret r)) []).2 = 1 ∧
    countTerminal (manager.transaction ⟨envOk⟩ rcOpts
      (.nested rcOpts (.ret none) (fun r => .ret r)) []).2 = 1 ∧
    (runProg envOk (.nested rcOpts (.ret none) (fun r => .ret r))
      (MakeContextTx [] 9)).2 = [] :=
  C1_one_begin_one_terminal ⟨envOk⟩ rcOpts
    (.nested rcOpts (.ret none) (fun r => .ret r))
    (.nested rcOpts (.ret none) (fun r => .ret r))
    [] (MakeContextTx [] 9) 7 9 (by rfl) (by rfl) (by rfl)

/-- C8 counterexample: with handle 9 bound in the context, `BeginTx` on
the executor still targets the pool (pool 3), not the bound handle —
so not every listed operation routes by context. -/
theorem C8_counterexample :
    lookupTx (MakeContextTx [] 9) = some 9 ∧
    (pgTransactor.BeginTx ⟨3⟩ (MakeContextTx [] 9) rcOpts).1 ≠
      Target.toTx 9 ∧
    (pgTransactor.BeginTx ⟨3⟩ (MakeContextTx [] 9) rcOpts).1 =
      Target.toPool 3 := by
  refine ⟨rfl, ?_, rfl⟩
  decide

/-- C8 (amended): the exec, query, query-single-row and bulk-copy
operations of the executor read the passed context and route to the
bound handle when present, else to the pool; the transaction-begin
operation does not inspect the context and always routes to the pool. -/
theorem C8_operations_route_by_context (p : pgTransactor) (ctx : Ctx)
    (t : Tx) (sql tbl : String) (cols : List String) (opts : TxOptions) :
    (lookupTx ctx = some t →
      (p.Exec ctx sql).1 = Target.toTx t ∧
      (p.Query ctx sql).1 = Target.toTx t ∧
      (p.QueryRow ctx sql).1 = Target.toTx t ∧
      (p.CopyFrom ctx tbl cols).1 = Target.toTx t) ∧
    (lookupTx ctx = none →
      (p.Exec ctx sql).1 = Target.toPool p.dbc ∧
      (p.Query ctx sql).1 = Target.toPool p.dbc ∧
      (p.QueryRow ctx sql).1 = Target.toPool p.dbc ∧
      (p.CopyFrom ctx tbl cols).1 = Target.toPool p.dbc) ∧
    (p.BeginTx ctx opts).1 = Target.toPool p.dbc := by
  refine ⟨fun h => ?_, fun h => ?_, rfl⟩ <;>
    simp [pgTransactor.Exec, pgTransactor.Query, pgTransactor.QueryRow,
      pgTransactor.CopyFrom, h]

/-- C8 witness: with handle 9 bound the four data operations target the
handle; on the empty context they target pool 3. -/
theorem C8_operations_route_by_context_witness :
    (pgTransactor.Exec ⟨3⟩ (MakeContextTx [] 9) "s").1 = Target.toTx 9 ∧
    (pgTransactor.Exec ⟨3⟩ [] "s").1 = Target.toPool 3 :=
  ⟨((C8_operations_route_by_context ⟨3⟩ (MakeContextTx [] 9) 9 "s" "t"
      [] rcOpts).1 (by rfl)).1,
   ((C8_operations_route_by_context ⟨3⟩ [] 9 "s" "t" [] rcOpts).2.1
      (by rfl)).1⟩
